import Mathlib

/-!
Shallow embedding of the binding orchestration core of
`zun/cni/binding/base.py` (OpenStack Zun CNI binding module).

The embedding models the four components of the module:

* `enable_ipv6`     — the helper `_enable_ipv6` (lines 60-73): a namespace
  switch, a write to the `disable_ipv6` sysctl, and the `finally` restore.
* `configure_l3`    — the privileged configurator `_configure_l3`
  (lines 76-102): address assignment followed by route installation.
* `need_configure_l3` — the L3 requirement policy `_need_configure_l3`
  (lines 105-125).
* `connect` / `disconnect` — the orchestrator entry points (lines 128-143).

External collaborators (stevedore driver loading, `os_vif.plug`/`unplug`,
the driver's own `connect`/`disconnect`, and the kernel's responses to
address/route netlink operations) are modelled by environment records of
oracles that decide whether each external step succeeds, and with which
error code a route addition fails.  The functions produce an explicit
event trace so that ordering and invocation-count properties can be
stated, together with the resulting error (if any) and the final active
network namespace of the privileged execution context.
-/

set_option autoImplicit false
set_option linter.unusedVariables false

namespace ZunCni

/-! ### Data model (spec section 3; `vif_dict` shape used by `_configure_l3`) -/

/-- A CIDR as used by `_configure_l3`: only the address-family `version`
(4 or 6) and the `prefixlen` are consulted by the code. -/
structure Cidr where
  version : Nat
  prefixlen : Nat
  deriving DecidableEq

/-- An explicit route of a subnet: `route['gateway']` and `route['cidr']`
(the destination, already rendered to a string by `str(...)`). -/
structure Route where
  gateway : String
  cidr : String
  deriving DecidableEq

/-- A subnet of the VIF's network: its CIDR, the assigned IP addresses
(`subnet['ips']`, each contributing `fip['address']`), the explicit
routes, and the optional gateway (`'gateway' in subnet`). -/
structure Subnet where
  cidr : Cidr
  ips : List String
  routes : List Route
  gateway : Option String
  deriving DecidableEq

/-- The network of a VIF: an ordered list of subnets. -/
structure Network where
  subnets : List Subnet
  deriving DecidableEq

/-- The plain-data snapshot of a VIF passed across the privileged boundary
(`vif_dict` in the source). -/
structure VifDict where
  network : Network
  deriving DecidableEq

/-- A live VIF object as seen by the orchestrator: its variant discriminant
(`type(vif).__name__`, used for driver resolution), the optional `physnet`
attribute (`hasattr(vif, 'physnet')`), and its network. -/
structure Vif where
  vifKind : String
  physnet : Option String
  network : Network
  deriving DecidableEq

/-- Opaque context handed through to the plugging collaborator; the core
never interprets it. -/
structure InstanceInfo where
  token : String
  deriving DecidableEq

/-- Modelled from the spec: `zun.cni.utils.osvif_vif_to_dict` is not under
`src/`; the spec describes it as producing "a plain-data snapshot of the
VIF (decoupled from any live object)".  The snapshot keeps exactly the
network data that `_configure_l3` consumes. -/
def osvif_vif_to_dict (vif : Vif) : VifDict :=
  ⟨vif.network⟩

/-- Modelled from the spec: `zun.cni.utils.convert_netns` is not under
`src/`; the spec describes it as normalizing a namespace identifier to a
canonical handle, with absent meaning "current namespace, no switch".
Identifiers are treated as already canonical. -/
def convert_netns (netns : Option String) : Option String :=
  netns

/-- The active network namespace of the privileged execution context.
`none` stands for the process's original namespace (no explicit switch in
effect). -/
structure NsCtx where
  current : Option String
  deriving DecidableEq

/-! ### Events, oracles and errors of the privileged configurator -/

/-- Observable actions performed by `_configure_l3` inside the target
namespace, in execution order.  A route added with the literal destination
`dst='default'` (source lines 94-95) is recorded as `addDefaultRoute`,
distinct from the explicit per-subnet `routes.add` of lines 90-91.
`addIp` records the subnet's address-family version alongside the address
and prefix length, so that ordering relative to IPv6 enablement can be
stated. -/
inductive Event where
  | enableIPv6
  | addIp (address : String) (prefixlen : Nat) (version : Nat)
  | addRoute (gateway : String) (dst : String)
  | addDefaultRoute (gateway : String)
  deriving DecidableEq

/-- Outcome the kernel reports for one netlink route addition. -/
inductive NetlinkResult where
  | ok
  | err (code : Nat)
  deriving DecidableEq

/-- `errno.EEXIST`, the single tolerated failure code for the default
route (source line 97). -/
def EEXIST : Nat := 17

/-- Errors surfaced by the privileged configurator. -/
inductive L3Err where
  | ifaceNotFound (ifname : String)
  | enableIPv6Failed
  | ifaceCommitFailed
  | routeFailed (gateway : String) (dst : String) (code : Nat)
  deriving DecidableEq

/-- Environment of the privileged configurator: oracles deciding the
outcome of each external effect.  `routeResult gateway dst` is the
kernel's answer to `routes.add(gateway=gateway, dst=dst).commit()` (the
default-route attempt passes the literal string `default` as `dst`);
`disableIPv6Fails` makes the sysctl write inside `_enable_ipv6` throw;
`ifaceMissing` makes the `ipdb.interfaces[ifname]` lookup fail;
`ifaceCommitFails` makes the interface transaction commit (exit of the
`with ... as iface` block) fail. -/
structure L3Env where
  routeResult : String → String → NetlinkResult
  disableIPv6Fails : Bool
  ifaceMissing : Bool
  ifaceCommitFails : Bool

/-! ### `_enable_ipv6` (source lines 60-73) -/

/-- Embedding of `_enable_ipv6`.  The function opens a handle on the
current namespace (`open('/proc/self/ns/net')`), switches into `netns`
(`pyroute_netns.setns(netns)`), writes `'0'` to the
`disable_ipv6` sysctl — which may throw — and in a `finally` block always
switches back to the saved handle.  Path conversion for a containerized
agent is abstracted away.  Returns the final namespace context and the
error, if the write threw. -/
def enable_ipv6 (netns : Option String) (disableFails : Bool) (ns0 : NsCtx) :
    NsCtx × Option L3Err :=
  let self_ns_fd := ns0.current
  let _inside : NsCtx := ⟨netns⟩
  let result := if disableFails then some L3Err.enableIPv6Failed else none
  (⟨self_ns_fd⟩, result)

/-! ### `_configure_l3` (source lines 76-102) -/

/-- The `addIp` events contributed by one subnet (source lines 83-85):
one per assigned IP, carrying the subnet's prefix length and version. -/
def subnetAddrEvents (s : Subnet) : List Event :=
  s.ips.map (fun fip => Event.addIp fip s.cidr.prefixlen s.cidr.version)

/-- First pass of `_configure_l3` (source lines 80-85), inside the
`with ipdb.interfaces[ifname]` block: for each subnet, invoke
`_enable_ipv6` when the subnet's CIDR version is 6, then add each of its
addresses.  Returns the trace, the namespace context, and the first
error (which aborts the remainder). -/
def addrsPhase (env : L3Env) (netns : Option String) (ns : NsCtx) :
    List Subnet → List Event × NsCtx × Option L3Err
  | [] => ([], ns, none)
  | s :: rest =>
    if s.cidr.version = 6 then
      let (ns', err) := enable_ipv6 netns env.disableIPv6Fails ns
      match err with
      | some e => ([Event.enableIPv6], ns', some e)
      | none =>
        let (evs, ns'', err') := addrsPhase env netns ns' rest
        (Event.enableIPv6 :: subnetAddrEvents s ++ evs, ns'', err')
    else
      let (evs, ns', err') := addrsPhase env netns ns rest
      (subnetAddrEvents s ++ evs, ns', err')

/-- Explicit per-subnet route installation (source lines 89-91): each
route is committed immediately and any failure propagates. -/
def explicitRoutes (env : L3Env) : List Route → List Event × Option L3Err
  | [] => ([], none)
  | r :: rest =>
    match env.routeResult r.gateway r.cidr with
    | NetlinkResult.ok =>
      let (evs, err) := explicitRoutes env rest
      (Event.addRoute r.gateway r.cidr :: evs, err)
    | NetlinkResult.err code =>
      ([Event.addRoute r.gateway r.cidr],
       some (L3Err.routeFailed r.gateway r.cidr code))

/-- Default-route attempt for one subnet (source lines 92-102): only when
`is_default_gateway` is set and the subnet declares a gateway; a failure
with code `EEXIST` is swallowed (logged at debug level in the source),
any other failure propagates. -/
def defaultRouteStep (env : L3Env) (is_default_gateway : Bool) (s : Subnet) :
    List Event × Option L3Err :=
  if is_default_gateway then
    match s.gateway with
    | some gw =>
      match env.routeResult gw "default" with
      | NetlinkResult.ok => ([Event.addDefaultRoute gw], none)
      | NetlinkResult.err code =>
        if code = EEXIST then ([Event.addDefaultRoute gw], none)
        else ([Event.addDefaultRoute gw],
              some (L3Err.routeFailed gw "default" code))
    | none => ([], none)
  else ([], none)

/-- Second pass of `_configure_l3` (source lines 87-102): for each subnet,
install its explicit routes, then attempt the default route.  The first
propagating error aborts the remaining subnets. -/
def routesPhase (env : L3Env) (is_default_gateway : Bool) :
    List Subnet → List Event × Option L3Err
  | [] => ([], none)
  | s :: rest =>
    let (evs, err) := explicitRoutes env s.routes
    match err with
    | some e => (evs, some e)
    | none =>
      let (evd, errd) := defaultRouteStep env is_default_gateway s
      match errd with
      | some e => (evs ++ evd, some e)
      | none =>
        let (evr, errr) := routesPhase env is_default_gateway rest
        (evs ++ evd ++ evr, errr)

/-- Result of one `_configure_l3` call: the event trace, the final active
namespace of the privileged context, and the error, if any. -/
structure L3Result where
  trace : List Event
  ns : NsCtx
  outcome : Option L3Err
  deriving DecidableEq

/-- Embedding of `_configure_l3` (source lines 76-102).  Opens the
namespace-scoped IPDB handle, looks up `ifname`, runs the address pass
(during which the interface transaction may fail to commit on block
exit), then runs the route pass. -/
def configure_l3 (env : L3Env) (vif_dict : VifDict) (ifname : String)
    (netns : Option String) (is_default_gateway : Bool) (ns : NsCtx) : L3Result :=
  if env.ifaceMissing then ⟨[], ns, some (L3Err.ifaceNotFound ifname)⟩
  else
    let (evA, ns', errA) := addrsPhase env netns ns vif_dict.network.subnets
    match errA with
    | some e => ⟨evA, ns', some e⟩
    | none =>
      if env.ifaceCommitFails then ⟨evA, ns', some L3Err.ifaceCommitFailed⟩
      else
        let (evR, errR) := routesPhase env is_default_gateway vif_dict.network.subnets
        ⟨evA ++ evR, ns', errR⟩

/-! ### `_need_configure_l3` (source lines 105-125) -/

/-- Failures of L3 policy resolution: a `KeyError` on either mapping
table, re-raised after logging the offending key (source lines 112-114
and 118-120).  The carried key is the one the source logs. -/
inductive PolicyErr where
  | resourceNotFound (physnet : String)
  | resourceDriverNotFound (resource : String)
  deriving DecidableEq

/-- Process-wide read-only configuration consulted by the policy:
`CONF.sriov_physnet_resource_mappings` and
`CONF.sriov_resource_driver_mappings` as association lists.
`userspace_drivers` is modelled from the spec: the fixed set
`zun.common.consts.USERSPACE_DRIVERS` is not under `src/`; the spec
describes it as "a fixed set of driver names classified as userspace",
so it is carried abstractly as part of the configuration. -/
structure Conf where
  sriov_physnet_resource_mappings : List (String × String)
  sriov_resource_driver_mappings : List (String × String)
  userspace_drivers : List String

/-- Embedding of `_need_configure_l3` (source lines 105-125): a VIF
without a `physnet` attribute always needs L3; otherwise the physnet is
mapped to a resource, the resource to a driver name — a missing entry in
either table raises — and a userspace driver name answers `false`,
anything else `true`. -/
def need_configure_l3 (conf : Conf) (vif : Vif) : Except PolicyErr Bool :=
  match vif.physnet with
  | none => Except.ok true
  | some physnet =>
    match conf.sriov_physnet_resource_mappings.lookup physnet with
    | none => Except.error (PolicyErr.resourceNotFound physnet)
    | some resource =>
      match conf.sriov_resource_driver_mappings.lookup resource with
      | none => Except.error (PolicyErr.resourceDriverNotFound resource)
      | some driver_name =>
        if driver_name ∈ conf.userspace_drivers then Except.ok false
        else Except.ok true

/-! ### Orchestrator: `connect` (lines 128-136) and `disconnect` (lines 139-143) -/

/-- Steps of the orchestrator, recorded when attempted.  `resolveDriver`
carries the VIF kind handed to the stevedore `DriverManager`;
`invokeConfigureL3` carries the plain-data snapshot handed across the
privileged boundary. -/
inductive Step where
  | convertNetns (netns : Option String)
  | resolveDriver (vifKind : String)
  | plug
  | driverConnect
  | evalL3Policy
  | invokeConfigureL3 (vif_dict : VifDict)
  | driverDisconnect
  | unplug
  deriving DecidableEq

/-- Errors surfaced by the orchestrator entry points. -/
inductive ConnectErr where
  | driverNotFound (vifKind : String)
  | plugFailed
  | driverConnectFailed
  | policyFailed (e : PolicyErr)
  | l3Failed (e : L3Err)
  | driverDisconnectFailed
  | unplugFailed
  deriving DecidableEq

/-- Environment of the orchestrator: oracles for the external
collaborators.  `driverExists k` says whether a binding plugin registers
under name `k` in the `zun.cni.binding` stevedore namespace; the other
fields decide whether each collaborator call throws. -/
structure ConnectEnv where
  driverExists : String → Bool
  plugFails : Bool
  driverConnectFails : Bool
  driverDisconnectFails : Bool
  unplugFails : Bool

/-- Result of one orchestrator call: the step trace, the event trace of
the privileged configurator (empty when it was never invoked), the final
namespace context, and the error, if any. -/
structure ConnectResult where
  steps : List Step
  l3trace : List Event
  ns : NsCtx
  outcome : Option ConnectErr

/-- Embedding of `connect` (source lines 128-136): normalize `netns`,
resolve the binding driver (`_get_binding_driver`, lines 45-49 — a
stevedore lookup by the VIF's type name, whose failure names the missing
kind), invoke `os_vif.plug`, invoke `driver.connect`, evaluate the L3
policy, and — only when the policy answers `true` — snapshot the VIF and
invoke the privileged configurator.  A failure at any step stops there
and is surfaced; no completed step is rolled back. -/
def connect (cenv : ConnectEnv) (l3env : L3Env) (conf : Conf) (vif : Vif)
    (instance_info : InstanceInfo) (ifname : String) (netns : Option String)
    (is_default_gateway : Bool) (container_id : Option String) (ns : NsCtx) :
    ConnectResult :=
  let netns' := convert_netns netns
  if !cenv.driverExists vif.vifKind then
    ⟨[Step.convertNetns netns', Step.resolveDriver vif.vifKind], [], ns,
     some (ConnectErr.driverNotFound vif.vifKind)⟩
  else if cenv.plugFails then
    ⟨[Step.convertNetns netns', Step.resolveDriver vif.vifKind, Step.plug],
     [], ns, some ConnectErr.plugFailed⟩
  else if cenv.driverConnectFails then
    ⟨[Step.convertNetns netns', Step.resolveDriver vif.vifKind, Step.plug,
      Step.driverConnect], [], ns, some ConnectErr.driverConnectFailed⟩
  else
    match need_configure_l3 conf vif with
    | Except.error e =>
      ⟨[Step.convertNetns netns', Step.resolveDriver vif.vifKind, Step.plug,
        Step.driverConnect, Step.evalL3Policy], [], ns,
       some (ConnectErr.policyFailed e)⟩
    | Except.ok false =>
      ⟨[Step.convertNetns netns', Step.resolveDriver vif.vifKind, Step.plug,
        Step.driverConnect, Step.evalL3Policy], [], ns, none⟩
    | Except.ok true =>
      let vif_dict := osvif_vif_to_dict vif
      let r := configure_l3 l3env vif_dict ifname netns' is_default_gateway ns
      ⟨[Step.convertNetns netns', Step.resolveDriver vif.vifKind, Step.plug,
        Step.driverConnect, Step.evalL3Policy, Step.invokeConfigureL3 vif_dict],
       r.trace, r.ns, r.outcome.map ConnectErr.l3Failed⟩

/-- Embedding of `disconnect` (source lines 139-143): resolve the binding
driver, invoke `driver.disconnect`, invoke `os_vif.unplug`.  No netns
normalization and no L3 teardown of any kind. -/
def disconnect (cenv : ConnectEnv) (vif : Vif) (instance_info : InstanceInfo)
    (ifname : String) (netns : Option String) (container_id : Option String)
    (ns : NsCtx) : ConnectResult :=
  if !cenv.driverExists vif.vifKind then
    ⟨[Step.resolveDriver vif.vifKind], [], ns,
     some (ConnectErr.driverNotFound vif.vifKind)⟩
  else if cenv.driverDisconnectFails then
    ⟨[Step.resolveDriver vif.vifKind, Step.driverDisconnect], [], ns,
     some ConnectErr.driverDisconnectFailed⟩
  else if cenv.unplugFails then
    ⟨[Step.resolveDriver vif.vifKind, Step.driverDisconnect, Step.unplug],
     [], ns, some ConnectErr.unplugFailed⟩
  else
    ⟨[Step.resolveDriver vif.vifKind, Step.driverDisconnect, Step.unplug],
     [], ns, none⟩

/-- The full step sequence of a `connect` call on the success path: the
five unconditional steps, then the configurator invocation exactly when
the policy answers `true`. -/
def connectMasterSteps (conf : Conf) (vif : Vif) (netns : Option String) :
    List Step :=
  [Step.convertNetns (convert_netns netns), Step.resolveDriver vif.vifKind,
   Step.plug, Step.driverConnect, Step.evalL3Policy] ++
  (match need_configure_l3 conf vif with
   | Except.ok true => [Step.invokeConfigureL3 (osvif_vif_to_dict vif)]
   | _ => [])

/-! ### Derived observations on traces -/

/-- Whether an event is an attempt to install the default route
(`routes.add(..., dst='default')`, source lines 94-95). -/
def isDefaultRouteAttempt : Event → Bool
  | Event.addDefaultRoute _ => true
  | _ => false

/-- Whether an event is an address assignment. -/
def isAddIpEvent : Event → Bool
  | Event.addIp _ _ _ => true
  | _ => false

/-- Whether an event is a route installation (explicit or default). -/
def isRouteEvent : Event → Bool
  | Event.addRoute _ _ => true
  | Event.addDefaultRoute _ => true
  | _ => false

/-- Scans a trace left to right carrying the flag "an IPv6 enablement has
already happened"; answers `false` exactly when some IPv6 address
assignment occurs before any enablement. -/
def checkEnableOrder : Bool → List Event → Bool
  | _, [] => true
  | _, Event.enableIPv6 :: r => checkEnableOrder true r
  | enabled, Event.addIp _ _ v :: r =>
    (if v = 6 then enabled else true) && checkEnableOrder enabled r
  | enabled, Event.addRoute _ _ :: r => checkEnableOrder enabled r
  | enabled, Event.addDefaultRoute _ :: r => checkEnableOrder enabled r

/-- The enablement flag after scanning a trace. -/
def flagAfter (b : Bool) (l : List Event) : Bool :=
  b || l.any (fun e => e == Event.enableIPv6)

/-- Answers `true` exactly when no address assignment occurs after the
first route installation of the trace. -/
def addrsBeforeRoutes (tr : List Event) : Bool :=
  (tr.dropWhile (fun e => !isRouteEvent e)).all (fun e => !isAddIpEvent e)

/-! ### Concrete fixtures used by witnesses and counterexamples -/

/-- Environment in which every external effect of the configurator
succeeds. -/
def okEnv : L3Env := ⟨fun _ _ => NetlinkResult.ok, false, false, false⟩

/-- An IPv6 subnet `fd00::/64` holding one address, no explicit routes,
and the given gateway. -/
def v6subnet (g : Option String) : Subnet := ⟨⟨6, 64⟩, ["fd00::5"], [], g⟩

/-- An IPv4 subnet `10.0.0.0/24` holding one address, no explicit routes,
and gateway `10.0.0.1`. -/
def v4subnet : Subnet := ⟨⟨4, 24⟩, ["10.0.0.5"], [], some "10.0.0.1"⟩

/-- Orchestrator environment in which no binding plugin is registered for
any VIF kind. -/
def failResolveEnv : ConnectEnv := ⟨fun _ => false, false, false, false, false⟩

/-- Orchestrator environment in which every collaborator succeeds. -/
def okConnectEnv : ConnectEnv := ⟨fun _ => true, false, false, false, false⟩

/-- A physnet-less VIF of kind `VIFBridge` with no subnets. -/
def plainVif : Vif := ⟨"VIFBridge", none, ⟨[]⟩⟩

/-- A VIF of kind `VIFHostDevice` bound to physnet `physnet2`. -/
def sriovVif : Vif := ⟨"VIFHostDevice", some "physnet2", ⟨[v4subnet]⟩⟩

/-- Configuration mapping `physnet2` to resource `pci_a`, resource
`pci_a` to driver `vfio-pci`, with `vfio-pci` classified as userspace. -/
def userspaceConf : Conf :=
  ⟨[("physnet2", "pci_a")], [("pci_a", "vfio-pci")], ["vfio-pci"]⟩

/-- Empty configuration: both mapping tables empty. -/
def emptyConf : Conf := ⟨[], [], []⟩

/-- A physnet-less VIF whose network has two IPv4 subnets, each declaring
a gateway. -/
def twoGwVif : Vif := ⟨"VIFBridge", none, ⟨[v4subnet, v4subnet]⟩⟩

/-- A physnet-less VIF whose network has one IPv4 subnet with a
gateway. -/
def oneGwVif : Vif := ⟨"VIFBridge", none, ⟨[v4subnet]⟩⟩

/-- Environment in which every route addition fails with `EEXIST`
(equivalent route already present). -/
def eexistEnv : L3Env := ⟨fun _ _ => NetlinkResult.err EEXIST, false, false, false⟩

/-- Environment in which every route addition fails with code 13
(`EACCES`), a cause other than an existing equivalent route. -/
def eaccesEnv : L3Env := ⟨fun _ _ => NetlinkResult.err 13, false, false, false⟩

/-- An IPv4 subnet carrying one explicit route besides its gateway. -/
def routeSubnet : Subnet :=
  ⟨⟨4, 24⟩, ["10.0.0.5"], [⟨"10.0.0.254", "192.168.0.0/24"⟩], some "10.0.0.1"⟩

/-! ### Helper lemmas -/

theorem enable_ipv6_ns (netns : Option String) (b : Bool) (ns : NsCtx) :
    (enable_ipv6 netns b ns).1 = ns := rfl

theorem addrsPhase_ns (env : L3Env) (netns : Option String) :
    ∀ (subnets : List Subnet) (ns : NsCtx),
    (addrsPhase env netns ns subnets).2.1 = ns := by
  intro subnets
  induction subnets with
  | nil => intro ns; rfl
  | cons s rest ih =>
    intro ns
    by_cases h : s.cidr.version = 6
    · by_cases hd : env.disableIPv6Fails <;>
        simp [addrsPhase, h, hd, enable_ipv6, ih ⟨ns.current⟩]
    · simp [addrsPhase, h, ih ns]

theorem configure_l3_ns (env : L3Env) (d : VifDict) (ifname : String)
    (netns : Option String) (g : Bool) (ns : NsCtx) :
    (configure_l3 env d ifname netns g ns).ns = ns := by
  by_cases hi : env.ifaceMissing
  · simp [configure_l3, hi]
  · have hns := addrsPhase_ns env netns d.network.subnets ns
    rcases hA : addrsPhase env netns ns d.network.subnets with ⟨evA, nsA, errA⟩
    rw [hA] at hns
    simp only at hns
    cases errA with
    | some e => simp [configure_l3, hi, hA, hns]
    | none =>
      by_cases hc : env.ifaceCommitFails <;> simp [configure_l3, hi, hA, hc, hns]

theorem subnetAddrEvents_mem (s : Subnet) (e : Event) (he : e ∈ subnetAddrEvents s) :
    ∃ fip, e = Event.addIp fip s.cidr.prefixlen s.cidr.version := by
  simp only [subnetAddrEvents, List.mem_map] at he
  rcases he with ⟨fip, hfip, rfl⟩
  exact ⟨fip, rfl⟩

theorem addrsPhase_mem (env : L3Env) (netns : Option String) :
    ∀ (subnets : List Subnet) (ns : NsCtx) (e : Event),
    e ∈ (addrsPhase env netns ns subnets).1 →
    e = Event.enableIPv6 ∨ isAddIpEvent e = true := by
  intro subnets
  induction subnets with
  | nil => intro ns e he; simp [addrsPhase] at he
  | cons s rest ih =>
    intro ns e he
    by_cases h : s.cidr.version = 6
    · by_cases hd : env.disableIPv6Fails
      · simp [addrsPhase, h, hd, enable_ipv6] at he
        left; exact he
      · simp [addrsPhase, h, hd, enable_ipv6] at he
        rcases he with rfl | he
        · left; rfl
        rcases he with he | he
        · right
          rcases subnetAddrEvents_mem s e he with ⟨fip, rfl⟩
          rfl
        · exact ih _ e he
    · simp [addrsPhase, h] at he
      rcases he with he | he
      · right; rcases subnetAddrEvents_mem s e he with ⟨fip, rfl⟩; rfl
      · exact ih _ e he

theorem explicitRoutes_mem (env : L3Env) :
    ∀ (rs : List Route) (e : Event), e ∈ (explicitRoutes env rs).1 →
    ∃ g d, e = Event.addRoute g d := by
  intro rs
  induction rs with
  | nil => intro e he; simp [explicitRoutes] at he
  | cons r rest ih =>
    intro e he
    cases hr : env.routeResult r.gateway r.cidr with
    | ok =>
      simp [explicitRoutes, hr] at he
      rcases he with rfl | he
      · exact ⟨_, _, rfl⟩
      · exact ih e he
    | err code =>
      simp [explicitRoutes, hr] at he
      subst he
      exact ⟨_, _, rfl⟩

theorem defaultRouteStep_mem (env : L3Env) (g : Bool) (s : Subnet) (e : Event)
    (he : e ∈ (defaultRouteStep env g s).1) : ∃ gw, e = Event.addDefaultRoute gw := by
  by_cases hg : g
  · subst hg
    cases hgw : s.gateway with
    | none => simp [defaultRouteStep, hgw] at he
    | some gw =>
      cases hr : env.routeResult gw "default" with
      | ok => simp [defaultRouteStep, hgw, hr] at he; exact ⟨gw, he⟩
      | err code =>
        by_cases hc : code = EEXIST <;>
          · simp [defaultRouteStep, hgw, hr, hc] at he
            exact ⟨gw, he⟩
  · simp only [Bool.not_eq_true] at hg
    simp [defaultRouteStep, hg] at he

theorem routesPhase_mem (env : L3Env) (g : Bool) :
    ∀ (subnets : List Subnet) (e : Event), e ∈ (routesPhase env g subnets).1 →
    isRouteEvent e = true := by
  intro subnets
  induction subnets with
  | nil => intro e he; simp [routesPhase] at he
  | cons s rest ih =>
    intro e he
    rcases hE : explicitRoutes env s.routes with ⟨evs, err⟩
    have hexp : ∀ e ∈ evs, isRouteEvent e = true := by
      intro e' he'
      have : e' ∈ (explicitRoutes env s.routes).1 := by rw [hE]; exact he'
      rcases explicitRoutes_mem env s.routes e' this with ⟨a, b, rfl⟩
      rfl
    cases err with
    | some er =>
      simp [routesPhase, hE] at he
      exact hexp e he
    | none =>
      rcases hD : defaultRouteStep env g s with ⟨evd, errd⟩
      have hdef : ∀ e ∈ evd, isRouteEvent e = true := by
        intro e' he'
        have : e' ∈ (defaultRouteStep env g s).1 := by rw [hD]; exact he'
        rcases defaultRouteStep_mem env g s e' this with ⟨gw, rfl⟩
        rfl
      cases errd with
      | some er =>
        simp [routesPhase, hE, hD] at he
        rcases he with he | he
        · exact hexp e he
        · exact hdef e he
      | none =>
        simp [routesPhase, hE, hD] at he
        rcases he with he | he | he
        · exact hexp e he
        · exact hdef e he
        · exact ih e he

theorem subnetAddrEvents_count_enable (s : Subnet) :
    (subnetAddrEvents s).count Event.enableIPv6 = 0 := by
  apply List.count_eq_zero_of_not_mem
  intro he
  rcases subnetAddrEvents_mem s _ he with ⟨fip, h⟩
  exact absurd h (by simp)

theorem addrsPhase_count_enable (env : L3Env) (netns : Option String)
    (hd : env.disableIPv6Fails = false) :
    ∀ (subnets : List Subnet) (ns : NsCtx),
    (addrsPhase env netns ns subnets).1.count Event.enableIPv6
      = subnets.countP (fun s => s.cidr.version == 6) := by
  intro subnets
  induction subnets with
  | nil => intro ns; rfl
  | cons s rest ih =>
    intro ns
    by_cases h : s.cidr.version = 6
    · simp [addrsPhase, h, hd, enable_ipv6, List.count_cons, List.count_append,
        subnetAddrEvents_count_enable, ih, List.countP_cons]
    · simp [addrsPhase, h, subnetAddrEvents_count_enable, ih, List.countP_cons,
        List.count_append]

theorem routesPhase_count_enable (env : L3Env) (g : Bool) (subnets : List Subnet) :
    (routesPhase env g subnets).1.count Event.enableIPv6 = 0 := by
  apply List.count_eq_zero_of_not_mem
  intro he
  have := routesPhase_mem env g subnets _ he
  simp [isRouteEvent] at this

theorem addrsPhase_ok (env : L3Env) (netns : Option String)
    (hd : env.disableIPv6Fails = false) :
    ∀ (subnets : List Subnet) (ns : NsCtx),
    (addrsPhase env netns ns subnets).2.2 = none := by
  intro subnets
  induction subnets with
  | nil => intro ns; rfl
  | cons s rest ih =>
    intro ns
    by_cases h : s.cidr.version = 6
    · simp [addrsPhase, h, hd, enable_ipv6, ih]
    · simp [addrsPhase, h, ih]

theorem explicitRoutes_ok (env : L3Env) :
    ∀ (rs : List Route), (∀ r ∈ rs, env.routeResult r.gateway r.cidr = NetlinkResult.ok) →
    (explicitRoutes env rs).2 = none := by
  intro rs
  induction rs with
  | nil => intro _; rfl
  | cons r rest ih =>
    intro hok
    have hr := hok r (by simp)
    simp [explicitRoutes, hr]
    exact ih (fun r' hr' => hok r' (by simp [hr']))

theorem defaultRouteStep_ok (env : L3Env) (g : Bool) (s : Subnet)
    (hdef : ∀ gw, env.routeResult gw "default" = NetlinkResult.ok ∨
      env.routeResult gw "default" = NetlinkResult.err EEXIST) :
    (defaultRouteStep env g s).2 = none := by
  by_cases hg : g
  · subst hg
    cases hgw : s.gateway with
    | none => simp [defaultRouteStep, hgw]
    | some gw =>
      rcases hdef gw with hr | hr <;> simp [defaultRouteStep, hgw, hr, EEXIST]
  · simp only [Bool.not_eq_true] at hg
    simp [defaultRouteStep, hg]

theorem routesPhase_ok (env : L3Env) (g : Bool) :
    ∀ (subnets : List Subnet),
    (∀ s ∈ subnets, ∀ r ∈ s.routes, env.routeResult r.gateway r.cidr = NetlinkResult.ok) →
    (∀ gw, env.routeResult gw "default" = NetlinkResult.ok ∨
      env.routeResult gw "default" = NetlinkResult.err EEXIST) →
    (routesPhase env g subnets).2 = none := by
  intro subnets
  induction subnets with
  | nil => intro _ _; rfl
  | cons s rest ih =>
    intro hexp hdef
    have hE : (explicitRoutes env s.routes).2 = none :=
      explicitRoutes_ok env s.routes (hexp s (by simp))
    rcases hE' : explicitRoutes env s.routes with ⟨evs, err⟩
    rw [hE'] at hE; simp only at hE; subst hE
    have hD : (defaultRouteStep env g s).2 = none := defaultRouteStep_ok env g s hdef
    rcases hD' : defaultRouteStep env g s with ⟨evd, errd⟩
    rw [hD'] at hD; simp only at hD; subst hD
    simp [routesPhase, hE', hD']
    exact ih (fun s' hs' => hexp s' (by simp [hs'])) hdef

theorem defaultRouteStep_countP (env : L3Env) (g : Bool) (s : Subnet) :
    (defaultRouteStep env g s).1.countP isDefaultRouteAttempt
      = if g && s.gateway.isSome then 1 else 0 := by
  by_cases hg : g
  · subst hg
    cases hgw : s.gateway with
    | none => simp [defaultRouteStep, hgw]
    | some gw =>
      cases hr : env.routeResult gw "default" with
      | ok => simp [defaultRouteStep, hgw, hr, isDefaultRouteAttempt]
      | err code =>
        by_cases hc : code = EEXIST <;>
          simp [defaultRouteStep, hgw, hr, hc, isDefaultRouteAttempt]
  · simp only [Bool.not_eq_true] at hg
    simp [defaultRouteStep, hg]

theorem explicitRoutes_countP_default (env : L3Env) (rs : List Route) :
    (explicitRoutes env rs).1.countP isDefaultRouteAttempt = 0 := by
  rw [List.countP_eq_zero]
  intro e he
  rcases explicitRoutes_mem env rs e he with ⟨a, b, rfl⟩
  simp [isDefaultRouteAttempt]

theorem routesPhase_countP_default (env : L3Env)
    (hok : ∀ g d, env.routeResult g d = NetlinkResult.ok) :
    ∀ (subnets : List Subnet),
    (routesPhase env true subnets).1.countP isDefaultRouteAttempt
      = subnets.countP (fun s => s.gateway.isSome) := by
  intro subnets
  induction subnets with
  | nil => rfl
  | cons s rest ih =>
    have hE : (explicitRoutes env s.routes).2 = none :=
      explicitRoutes_ok env s.routes (fun r _ => hok _ _)
    rcases hE' : explicitRoutes env s.routes with ⟨evs, err⟩
    rw [hE'] at hE; simp only at hE; subst hE
    have hD : (defaultRouteStep env true s).2 = none :=
      defaultRouteStep_ok env true s (fun gw => Or.inl (hok _ _))
    rcases hD' : defaultRouteStep env true s with ⟨evd, errd⟩
    rw [hD'] at hD; simp only at hD; subst hD
    have hcd : evd.countP isDefaultRouteAttempt = if s.gateway.isSome then 1 else 0 := by
      have := defaultRouteStep_countP env true s
      rw [hD'] at this; simpa using this
    have hce : evs.countP isDefaultRouteAttempt = 0 := by
      have := explicitRoutes_countP_default env s.routes
      rw [hE'] at this; simpa using this
    simp [routesPhase, hE', hD', List.countP_append, hcd, hce, ih, List.countP_cons]
    omega

theorem addrsPhase_countP_default (env : L3Env) (netns : Option String)
    (subnets : List Subnet) (ns : NsCtx) :
    (addrsPhase env netns ns subnets).1.countP isDefaultRouteAttempt = 0 := by
  rw [List.countP_eq_zero]
  intro e he
  rcases addrsPhase_mem env netns subnets ns e he with rfl | h
  · simp [isDefaultRouteAttempt]
  · cases e <;> simp_all [isAddIpEvent, isDefaultRouteAttempt]

theorem checkEnableOrder_true : ∀ l : List Event, checkEnableOrder true l = true := by
  intro l
  induction l with
  | nil => rfl
  | cons e r ih => cases e <;> simp [checkEnableOrder, ih]

theorem addIp_beq_enable (a : String) (p v : Nat) :
    (Event.addIp a p v == Event.enableIPv6) = false := by
  rw [beq_eq_false_iff_ne]
  intro h
  cases h

theorem addRoute_beq_enable (g d : String) :
    (Event.addRoute g d == Event.enableIPv6) = false := by
  rw [beq_eq_false_iff_ne]
  intro h
  cases h

theorem addDefaultRoute_beq_enable (g : String) :
    (Event.addDefaultRoute g == Event.enableIPv6) = false := by
  rw [beq_eq_false_iff_ne]
  intro h
  cases h

theorem checkEnableOrder_append :
    ∀ (l1 l2 : List Event) (b : Bool),
    checkEnableOrder b (l1 ++ l2)
      = (checkEnableOrder b l1 && checkEnableOrder (flagAfter b l1) l2) := by
  intro l1
  induction l1 with
  | nil => intro l2 b; simp [checkEnableOrder, flagAfter]
  | cons e r ih =>
    intro l2 b
    cases e with
    | enableIPv6 => simp [checkEnableOrder, ih, flagAfter]
    | addIp a p v =>
      simp [checkEnableOrder, ih, flagAfter, Bool.and_assoc, addIp_beq_enable]
    | addRoute g d => simp [checkEnableOrder, ih, flagAfter, addRoute_beq_enable]
    | addDefaultRoute g =>
      simp [checkEnableOrder, ih, flagAfter, addDefaultRoute_beq_enable]

theorem checkEnableOrder_no_v6 :
    ∀ (l : List Event) (b : Bool), (∀ a p, Event.addIp a p 6 ∉ l) →
    checkEnableOrder b l = true := by
  intro l
  induction l with
  | nil => intro b _; rfl
  | cons e r ih =>
    intro b h
    cases e with
    | enableIPv6 => simp [checkEnableOrder, checkEnableOrder_true]
    | addIp a p v =>
      have hv : ¬v = 6 := by
        intro hv; subst hv; exact h a p (by simp)
      simp [checkEnableOrder, hv]
      exact ih b (fun a' p' hm => h a' p' (by simp [hm]))
    | addRoute g d =>
      simp only [checkEnableOrder]
      exact ih b (fun a' p' hm => h a' p' (by simp [hm]))
    | addDefaultRoute g =>
      simp only [checkEnableOrder]
      exact ih b (fun a' p' hm => h a' p' (by simp [hm]))

theorem flagAfter_no_enable (b : Bool) (l : List Event)
    (h : Event.enableIPv6 ∉ l) : flagAfter b l = b := by
  have hany : l.any (fun e => e == Event.enableIPv6) = false := by
    rw [List.any_eq_false]
    intro e he heq
    exact h ((eq_of_beq heq) ▸ he)
  simp [flagAfter, hany]

theorem subnetAddrEvents_no_enable (s : Subnet) :
    Event.enableIPv6 ∉ subnetAddrEvents s := by
  intro hm
  rcases subnetAddrEvents_mem s _ hm with ⟨fip, heq⟩
  exact absurd heq (by simp)

theorem subnetAddrEvents_no_v6_of_ne (s : Subnet) (h : ¬s.cidr.version = 6) :
    ∀ a p, Event.addIp a p 6 ∉ subnetAddrEvents s := by
  intro a p hm
  rcases subnetAddrEvents_mem s _ hm with ⟨fip, heq⟩
  have := (Event.addIp.injEq _ _ _ _ _ _).mp heq
  exact h (this.2.2.symm)

theorem addrsPhase_checkEnableOrder (env : L3Env) (netns : Option String) :
    ∀ (subnets : List Subnet) (ns : NsCtx) (b : Bool),
    checkEnableOrder b (addrsPhase env netns ns subnets).1 = true := by
  intro subnets
  induction subnets with
  | nil => intro ns b; rfl
  | cons s rest ih =>
    intro ns b
    by_cases h : s.cidr.version = 6
    · by_cases hdd : env.disableIPv6Fails <;>
        simp [addrsPhase, h, hdd, enable_ipv6, checkEnableOrder, checkEnableOrder_true]
    · simp only [addrsPhase, h, if_false]
      rcases hA : addrsPhase env netns ns rest with ⟨evs, nsr, err⟩
      have hktail : checkEnableOrder (flagAfter b (subnetAddrEvents s)) evs = true := by
        have := ih ns (flagAfter b (subnetAddrEvents s))
        rw [hA] at this; exact this
      have hkhead : checkEnableOrder b (subnetAddrEvents s) = true :=
        checkEnableOrder_no_v6 _ b (subnetAddrEvents_no_v6_of_ne s h)
      simp [hA, checkEnableOrder_append, hkhead, hktail]

theorem addrsPhase_no_route (env : L3Env) (netns : Option String)
    (subnets : List Subnet) (ns : NsCtx) :
    ∀ e ∈ (addrsPhase env netns ns subnets).1, isRouteEvent e = false := by
  intro e he
  rcases addrsPhase_mem env netns subnets ns e he with rfl | h
  · rfl
  · cases e <;> simp_all [isAddIpEvent, isRouteEvent]

theorem routesPhase_no_addIp (env : L3Env) (g : Bool) (subnets : List Subnet) :
    ∀ e ∈ (routesPhase env g subnets).1, isAddIpEvent e = false := by
  intro e he
  have := routesPhase_mem env g subnets e he
  cases e <;> simp_all [isAddIpEvent, isRouteEvent]

theorem routesPhase_no_v6addIp (env : L3Env) (g : Bool) (subnets : List Subnet) :
    ∀ a p, Event.addIp a p 6 ∉ (routesPhase env g subnets).1 := by
  intro a p hm
  have := routesPhase_no_addIp env g subnets _ hm
  simp [isAddIpEvent] at this

theorem addrsBeforeRoutes_of :
    ∀ (l1 l2 : List Event), (∀ e ∈ l1, isRouteEvent e = false) →
    (∀ e ∈ l2, isAddIpEvent e = false) → addrsBeforeRoutes (l1 ++ l2) = true := by
  intro l1
  induction l1 with
  | nil =>
    intro l2 h1 h2
    simp only [addrsBeforeRoutes, List.nil_append]
    rw [List.all_eq_true]
    intro e he
    have hmem : e ∈ l2 := (List.dropWhile_sublist _).subset he
    simp [h2 e hmem]
  | cons e r ih =>
    intro l2 h1 h2
    have hre : isRouteEvent e = false := h1 e (by simp)
    have htail := ih l2 (fun e' he' => h1 e' (by simp [he'])) h2
    simp only [addrsBeforeRoutes] at htail ⊢
    rw [List.cons_append, List.dropWhile_cons_of_pos (by simp [hre])]
    exact htail

/-! ### Claim theorems -/

/-- Claim C4: for every `configure_l3` call, the execution context's
active network namespace after the call equals the namespace active
before the call — for every environment, so in particular when the call
triggers IPv6 enablement and the disable step inside the target namespace
throws (`env.disableIPv6Fails = true`); the second conjunct states the
restoration for the `_enable_ipv6` helper itself. -/
theorem configure_l3_restores_namespace (env : L3Env) (d : VifDict)
    (ifname : String) (netns : Option String) (idg : Bool) (ns : NsCtx) :
    (configure_l3 env d ifname netns idg ns).ns = ns ∧
    (enable_ipv6 netns env.disableIPv6Fails ns).1 = ns :=
  ⟨configure_l3_ns env d ifname netns idg ns, rfl⟩

/-- Claim C10: in every `configure_l3` call, no address assignment occurs
after any route installation in the event trace: the function makes a
full address pass before the route pass. -/
theorem addresses_before_routes (env : L3Env) (d : VifDict) (ifname : String)
    (netns : Option String) (idg : Bool) (ns : NsCtx) :
    addrsBeforeRoutes (configure_l3 env d ifname netns idg ns).trace = true := by
  by_cases hi : env.ifaceMissing
  · simp [configure_l3, hi, addrsBeforeRoutes]
  · rcases hA : addrsPhase env netns ns d.network.subnets with ⟨evA, nsA, errA⟩
    have h1 : ∀ e ∈ evA, isRouteEvent e = false := by
      intro e he
      exact addrsPhase_no_route env netns d.network.subnets ns e (by rw [hA]; exact he)
    cases errA with
    | some e =>
      have hres := addrsBeforeRoutes_of evA [] h1 (by intro e' he'; simp at he')
      simp only [List.append_nil] at hres
      simp [configure_l3, hi, hA, hres]
    | none =>
      by_cases hc : env.ifaceCommitFails
      · have hres := addrsBeforeRoutes_of evA [] h1 (by intro e' he'; simp at he')
        simp only [List.append_nil] at hres
        simp [configure_l3, hi, hA, hc, hres]
      · have h2 := routesPhase_no_addIp env idg d.network.subnets
        simp [configure_l3, hi, hA, hc]
        exact addrsBeforeRoutes_of _ _ h1 h2

/-- Claim C1, counterexample: at a concrete `connect` call whose driver
resolution fails, the VIF-plugging collaborator has NOT been invoked —
refuting the claim that the device is already materialized in that
scenario — although the error does identify the unresolved VIF kind. -/
theorem driver_resolution_failure_no_plug_cex :
    (connect failResolveEnv okEnv emptyConf plainVif ⟨"inst"⟩ "eth0"
        (some "cont-ns") true none ⟨none⟩).outcome
      = some (ConnectErr.driverNotFound "VIFBridge") ∧
    Step.plug ∉ (connect failResolveEnv okEnv emptyConf plainVif ⟨"inst"⟩ "eth0"
        (some "cont-ns") true none ⟨none⟩).steps := by
  constructor
  · rfl
  · decide

/-- Claim C1 (amended): if, during a `connect` call, driver resolution
fails, then the VIF-plugging collaborator has not yet been invoked
(resolution precedes plugging), no further step of `connect` runs — the
step trace consists exactly of netns normalization and the failed
resolution — and the resulting error identifies the unresolved VIF
kind. -/
theorem driver_resolution_failure_aborts_before_plug
    (cenv : ConnectEnv) (l3env : L3Env) (conf : Conf) (vif : Vif)
    (info : InstanceInfo) (ifname : String) (netns : Option String)
    (idg : Bool) (cid : Option String) (ns : NsCtx)
    (h : cenv.driverExists vif.vifKind = false) :
    connect cenv l3env conf vif info ifname netns idg cid ns
      = ⟨[Step.convertNetns (convert_netns netns), Step.resolveDriver vif.vifKind],
         [], ns, some (ConnectErr.driverNotFound vif.vifKind)⟩ := by
  simp [connect, h]

/-- Witness for C1's amended theorem at a concrete input. -/
theorem driver_resolution_failure_aborts_before_plug_witness :
    connect failResolveEnv okEnv emptyConf plainVif ⟨"inst"⟩ "eth0" (some "cont-ns")
        true none ⟨none⟩
      = ⟨[Step.convertNetns (some "cont-ns"), Step.resolveDriver "VIFBridge"],
         [], ⟨none⟩, some (ConnectErr.driverNotFound "VIFBridge")⟩ :=
  driver_resolution_failure_aborts_before_plug failResolveEnv okEnv emptyConf
    plainVif ⟨"inst"⟩ "eth0" (some "cont-ns") true none ⟨none⟩ rfl

/-- Claim C2, counterexample: a concrete `configure_l3` call on a network
with two IPv6 subnets invokes IPv6 enablement twice, refuting "at most
once per call". -/
theorem ipv6_enablement_twice_cex :
    ¬((configure_l3 okEnv ⟨⟨[v6subnet none, v6subnet none]⟩⟩ "eth0" (some "ns0")
        true ⟨none⟩).trace.count Event.enableIPv6 ≤ 1) := by
  decide

/-- Claim C2 (amended): in every `configure_l3` call (on an interface that
exists, with the sysctl write succeeding), IPv6 enablement is invoked
exactly once per IPv6 subnet of the VIF — so at least once when an IPv6
subnet is present and never otherwise — and every IPv6 address assignment
is preceded by an IPv6 enablement. -/
theorem ipv6_enablement_once_per_ipv6_subnet
    (env : L3Env) (d : VifDict) (ifname : String) (netns : Option String)
    (idg : Bool) (ns : NsCtx)
    (hd : env.disableIPv6Fails = false) (hi : env.ifaceMissing = false) :
    (configure_l3 env d ifname netns idg ns).trace.count Event.enableIPv6
        = d.network.subnets.countP (fun s => s.cidr.version == 6) ∧
    checkEnableOrder false (configure_l3 env d ifname netns idg ns).trace = true := by
  rcases hA : addrsPhase env netns ns d.network.subnets with ⟨evA, nsA, errA⟩
  have hcnt : evA.count Event.enableIPv6
      = d.network.subnets.countP (fun s => s.cidr.version == 6) := by
    have h := addrsPhase_count_enable env netns hd d.network.subnets ns
    rw [hA] at h; exact h
  have hchk : ∀ b, checkEnableOrder b evA = true := by
    intro b
    have h := addrsPhase_checkEnableOrder env netns d.network.subnets ns b
    rw [hA] at h; exact h
  have hok : errA = none := by
    have h := addrsPhase_ok env netns hd d.network.subnets ns
    rw [hA] at h; exact h
  subst hok
  by_cases hc : env.ifaceCommitFails
  · constructor
    · simp [configure_l3, hi, hA, hc, hcnt]
    · simp [configure_l3, hi, hA, hc, hchk]
  · have hR : checkEnableOrder (flagAfter false evA)
        (routesPhase env idg d.network.subnets).1 = true :=
      checkEnableOrder_no_v6 _ _ (routesPhase_no_v6addIp env idg d.network.subnets)
    constructor
    · simp [configure_l3, hi, hA, hc, List.count_append, hcnt,
        routesPhase_count_enable]
    · simp [configure_l3, hi, hA, hc, checkEnableOrder_append, hchk, hR]

/-- Witness for C2's amended theorem at a concrete input with one IPv6
subnet. -/
theorem ipv6_enablement_once_per_ipv6_subnet_witness :
    (configure_l3 okEnv ⟨⟨[v6subnet none]⟩⟩ "eth0" (some "ns0") true
        ⟨none⟩).trace.count Event.enableIPv6
      = (⟨⟨[v6subnet none]⟩⟩ : VifDict).network.subnets.countP
          (fun s => s.cidr.version == 6) ∧
    checkEnableOrder false
        (configure_l3 okEnv ⟨⟨[v6subnet none]⟩⟩ "eth0" (some "ns0") true
          ⟨none⟩).trace = true :=
  ipv6_enablement_once_per_ipv6_subnet okEnv ⟨⟨[v6subnet none]⟩⟩ "eth0"
    (some "ns0") true ⟨none⟩ rfl rfl

/-- Claim C3, counterexample: a concrete `connect` call on a VIF whose
network has two subnets, each declaring a gateway, attempts default-route
installation twice — refuting "at most once per connect call". -/
theorem default_route_two_attempts_cex :
    ¬((connect okConnectEnv okEnv emptyConf twoGwVif ⟨"inst"⟩ "eth0" (some "ns0")
        true none ⟨none⟩).l3trace.countP isDefaultRouteAttempt ≤ 1) := by
  decide

/-- Claim C3 (amended): for every `connect` call that reaches L3
configuration (with all collaborators succeeding), installation of a
default route is attempted exactly once per subnet that declares a
gateway — hence as many times as the VIF's network has gateway-declaring
subnets, not at most once per call. -/
theorem default_route_attempt_once_per_gateway_subnet
    (cenv : ConnectEnv) (l3env : L3Env) (conf : Conf) (vif : Vif)
    (info : InstanceInfo) (ifname : String) (netns : Option String)
    (cid : Option String) (ns : NsCtx)
    (hdrv : cenv.driverExists vif.vifKind = true)
    (hplug : cenv.plugFails = false)
    (hconn : cenv.driverConnectFails = false)
    (hneed : need_configure_l3 conf vif = Except.ok true)
    (hi : l3env.ifaceMissing = false)
    (hd : l3env.disableIPv6Fails = false)
    (hc : l3env.ifaceCommitFails = false)
    (hok : ∀ g dst, l3env.routeResult g dst = NetlinkResult.ok) :
    (connect cenv l3env conf vif info ifname netns true cid ns).l3trace.countP
        isDefaultRouteAttempt
      = vif.network.subnets.countP (fun s => s.gateway.isSome) := by
  have hsteps : (connect cenv l3env conf vif info ifname netns true cid ns).l3trace
      = (configure_l3 l3env (osvif_vif_to_dict vif) ifname (convert_netns netns)
          true ns).trace := by
    simp [connect, hdrv, hplug, hconn, hneed]
  rw [hsteps]
  rcases hA : addrsPhase l3env (convert_netns netns) ns
      vif.network.subnets with ⟨evA, nsA, errA⟩
  have hnone : errA = none := by
    have h := addrsPhase_ok l3env (convert_netns netns) hd
      vif.network.subnets ns
    rw [hA] at h; exact h
  subst hnone
  have hcA : evA.countP isDefaultRouteAttempt = 0 := by
    have h := addrsPhase_countP_default l3env (convert_netns netns)
      vif.network.subnets ns
    rw [hA] at h; exact h
  have hcR := routesPhase_countP_default l3env hok vif.network.subnets
  simp [configure_l3, hi, hA, hc, List.countP_append, hcA, hcR, osvif_vif_to_dict]

/-- Witness for C3's amended theorem: one gateway-declaring subnet gives
exactly one default-route attempt. -/
theorem default_route_attempt_once_per_gateway_subnet_witness :
    (connect okConnectEnv okEnv emptyConf oneGwVif ⟨"inst"⟩ "eth0" (some "ns0")
        true none ⟨none⟩).l3trace.countP isDefaultRouteAttempt
      = oneGwVif.network.subnets.countP (fun s => s.gateway.isSome) :=
  default_route_attempt_once_per_gateway_subnet okConnectEnv okEnv emptyConf
    oneGwVif ⟨"inst"⟩ "eth0" (some "ns0") none ⟨none⟩ rfl rfl rfl rfl rfl rfl rfl
    (fun _ _ => rfl)

/-- Claim C5: during default-route installation in `configure_l3`, a
failure whose cause is `EEXIST` (an equivalent default route already
exists) is swallowed — the call succeeds — while a default-route failure
with any other cause propagates and aborts the call, and a failure of an
explicit per-subnet route propagates whatever its cause (`EEXIST`
included), aborting before any default-route attempt. -/
theorem default_route_eexist_tolerated_other_failures_propagate :
    (∀ (env : L3Env) (d : VifDict) (ifname : String) (netns : Option String)
        (ns : NsCtx),
      env.ifaceMissing = false → env.disableIPv6Fails = false →
      env.ifaceCommitFails = false →
      (∀ s ∈ d.network.subnets, ∀ r ∈ s.routes,
        env.routeResult r.gateway r.cidr = NetlinkResult.ok) →
      (∀ gw, env.routeResult gw "default" = NetlinkResult.ok ∨
        env.routeResult gw "default" = NetlinkResult.err EEXIST) →
      (configure_l3 env d ifname netns true ns).outcome = none) ∧
    (∀ (env : L3Env) (s : Subnet) (ifname : String) (netns : Option String)
        (ns : NsCtx) (gw : String) (c : Nat),
      env.ifaceMissing = false → env.disableIPv6Fails = false →
      env.ifaceCommitFails = false → s.routes = [] → s.gateway = some gw →
      env.routeResult gw "default" = NetlinkResult.err c → ¬c = EEXIST →
      (configure_l3 env ⟨⟨[s]⟩⟩ ifname netns true ns).outcome
        = some (L3Err.routeFailed gw "default" c)) ∧
    (∀ (env : L3Env) (s : Subnet) (r : Route) (rest : List Route)
        (ifname : String) (netns : Option String) (ns : NsCtx) (c : Nat),
      env.ifaceMissing = false → env.disableIPv6Fails = false →
      env.ifaceCommitFails = false → s.routes = r :: rest →
      env.routeResult r.gateway r.cidr = NetlinkResult.err c →
      (configure_l3 env ⟨⟨[s]⟩⟩ ifname netns true ns).outcome
          = some (L3Err.routeFailed r.gateway r.cidr c) ∧
      (configure_l3 env ⟨⟨[s]⟩⟩ ifname netns true ns).trace.countP
          isDefaultRouteAttempt = 0) := by
  refine ⟨?_, ?_, ?_⟩
  · intro env d ifname netns ns hi hd hc hexp hdef
    rcases hA : addrsPhase env netns ns d.network.subnets with ⟨evA, nsA, errA⟩
    have hnone : errA = none := by
      have h := addrsPhase_ok env netns hd d.network.subnets ns
      rw [hA] at h; exact h
    subst hnone
    have hR : (routesPhase env true d.network.subnets).2 = none :=
      routesPhase_ok env true d.network.subnets hexp hdef
    rcases hRP : routesPhase env true d.network.subnets with ⟨evR, errR⟩
    rw [hRP] at hR; simp only at hR; subst hR
    simp [configure_l3, hi, hA, hc, hRP]
  · intro env s ifname netns ns gw c hi hd hc hroutes hgw hr hcne
    rcases hA : addrsPhase env netns ns [s] with ⟨evA, nsA, errA⟩
    have hnone : errA = none := by
      have h := addrsPhase_ok env netns hd [s] ns
      rw [hA] at h; exact h
    subst hnone
    have hE : explicitRoutes env s.routes = ([], none) := by
      rw [hroutes]; rfl
    have hD : defaultRouteStep env true s
        = ([Event.addDefaultRoute gw], some (L3Err.routeFailed gw "default" c)) := by
      simp [defaultRouteStep, hgw, hr, hcne]
    simp [configure_l3, hi, hA, hc, routesPhase, hE, hD]
  · intro env s r rest ifname netns ns c hi hd hc hroutes hr
    rcases hA : addrsPhase env netns ns [s] with ⟨evA, nsA, errA⟩
    have hnone : errA = none := by
      have h := addrsPhase_ok env netns hd [s] ns
      rw [hA] at h; exact h
    subst hnone
    have hcA : evA.countP isDefaultRouteAttempt = 0 := by
      have h := addrsPhase_countP_default env netns [s] ns
      rw [hA] at h; exact h
    have hE : explicitRoutes env s.routes
        = ([Event.addRoute r.gateway r.cidr],
           some (L3Err.routeFailed r.gateway r.cidr c)) := by
      rw [hroutes]
      simp [explicitRoutes, hr]
    constructor
    · simp [configure_l3, hi, hA, hc, routesPhase, hE]
    · simp [configure_l3, hi, hA, hc, routesPhase, hE, List.countP_append, hcA,
        isDefaultRouteAttempt]

/-- Witness for C5 at concrete inputs: an `EEXIST` default-route failure
is tolerated; an `EACCES` default-route failure propagates; an `EEXIST`
explicit-route failure propagates with no default-route attempt made. -/
theorem default_route_eexist_tolerated_witness :
    (configure_l3 eexistEnv ⟨⟨[v4subnet]⟩⟩ "eth0" (some "ns0") true ⟨none⟩).outcome
        = none ∧
    (configure_l3 eaccesEnv ⟨⟨[v4subnet]⟩⟩ "eth0" (some "ns0") true ⟨none⟩).outcome
        = some (L3Err.routeFailed "10.0.0.1" "default" 13) ∧
    ((configure_l3 eexistEnv ⟨⟨[routeSubnet]⟩⟩ "eth0" (some "ns0") true
        ⟨none⟩).outcome
      = some (L3Err.routeFailed "10.0.0.254" "192.168.0.0/24" EEXIST) ∧
    (configure_l3 eexistEnv ⟨⟨[routeSubnet]⟩⟩ "eth0" (some "ns0") true
        ⟨none⟩).trace.countP isDefaultRouteAttempt = 0) :=
  ⟨default_route_eexist_tolerated_other_failures_propagate.1 eexistEnv
      ⟨⟨[v4subnet]⟩⟩ "eth0" (some "ns0") ⟨none⟩ rfl rfl rfl
      (by decide) (fun gw => Or.inr rfl),
   default_route_eexist_tolerated_other_failures_propagate.2.1 eaccesEnv
      v4subnet "eth0" (some "ns0") ⟨none⟩ "10.0.0.1" 13 rfl rfl rfl rfl rfl rfl
      (by decide),
   default_route_eexist_tolerated_other_failures_propagate.2.2 eexistEnv
      routeSubnet ⟨"10.0.0.254", "192.168.0.0/24"⟩ [] "eth0" (some "ns0") ⟨none⟩
      EEXIST rfl rfl rfl rfl rfl⟩

/-- Claim C6: a VIF whose physnet maps (physnet → resource class →
driver name) to a driver name in the userspace set makes the L3 policy
answer `false`, and `connect` never invokes the privileged configurator
for it, whatever the other collaborators do. -/
theorem userspace_driver_skips_l3
    (conf : Conf) (vif : Vif) (physnet resource driver_name : String)
    (hp : vif.physnet = some physnet)
    (hr : conf.sriov_physnet_resource_mappings.lookup physnet = some resource)
    (hdv : conf.sriov_resource_driver_mappings.lookup resource = some driver_name)
    (hu : driver_name ∈ conf.userspace_drivers) :
    need_configure_l3 conf vif = Except.ok false ∧
    ∀ (cenv : ConnectEnv) (l3env : L3Env) (info : InstanceInfo) (ifname : String)
      (netns : Option String) (idg : Bool) (cid : Option String) (ns : NsCtx),
      (∀ d, Step.invokeConfigureL3 d ∉
        (connect cenv l3env conf vif info ifname netns idg cid ns).steps) ∧
      (connect cenv l3env conf vif info ifname netns idg cid ns).l3trace = [] := by
  have hneed : need_configure_l3 conf vif = Except.ok false := by
    simp [need_configure_l3, hp, hr, hdv, hu]
  refine ⟨hneed, ?_⟩
  intro cenv l3env info ifname netns idg cid ns
  constructor
  · intro d
    cases h1 : cenv.driverExists vif.vifKind <;>
      cases h2 : cenv.plugFails <;>
        cases h3 : cenv.driverConnectFails <;>
          simp [connect, h1, h2, h3, hneed]
  · cases h1 : cenv.driverExists vif.vifKind <;>
      cases h2 : cenv.plugFails <;>
        cases h3 : cenv.driverConnectFails <;>
          simp [connect, h1, h2, h3, hneed]

/-- Witness for C6 at a concrete configuration and VIF. -/
theorem userspace_driver_skips_l3_witness :
    need_configure_l3 userspaceConf sriovVif = Except.ok false ∧
    Step.invokeConfigureL3 ⟨⟨[]⟩⟩ ∉
      (connect okConnectEnv okEnv userspaceConf sriovVif ⟨"inst"⟩ "eth0"
        (some "ns0") true none ⟨none⟩).steps ∧
    (connect okConnectEnv okEnv userspaceConf sriovVif ⟨"inst"⟩ "eth0"
        (some "ns0") true none ⟨none⟩).l3trace = [] := by
  have h := userspace_driver_skips_l3 userspaceConf sriovVif "physnet2" "pci_a"
    "vfio-pci" rfl rfl rfl (by decide)
  exact ⟨h.1,
    (h.2 okConnectEnv okEnv ⟨"inst"⟩ "eth0" (some "ns0") true none ⟨none⟩).1 ⟨⟨[]⟩⟩,
    (h.2 okConnectEnv okEnv ⟨"inst"⟩ "eth0" (some "ns0") true none ⟨none⟩).2⟩

/-- Claim C7: a VIF with a physnet absent from the physnet → resource
table, or whose resource is absent from the resource → driver table,
makes policy resolution fail with an error identifying the offending key;
the error is not swallowed by `connect` (it surfaces as the call's
outcome when the earlier steps succeed), and no L3 configuration happens
at all in that call. -/
theorem missing_resource_mapping_fails_policy :
    (∀ (conf : Conf) (vif : Vif) (physnet : String),
      vif.physnet = some physnet →
      conf.sriov_physnet_resource_mappings.lookup physnet = none →
      need_configure_l3 conf vif
        = Except.error (PolicyErr.resourceNotFound physnet)) ∧
    (∀ (conf : Conf) (vif : Vif) (physnet resource : String),
      vif.physnet = some physnet →
      conf.sriov_physnet_resource_mappings.lookup physnet = some resource →
      conf.sriov_resource_driver_mappings.lookup resource = none →
      need_configure_l3 conf vif
        = Except.error (PolicyErr.resourceDriverNotFound resource)) ∧
    (∀ (cenv : ConnectEnv) (l3env : L3Env) (conf : Conf) (vif : Vif)
        (info : InstanceInfo) (ifname : String) (netns : Option String)
        (idg : Bool) (cid : Option String) (ns : NsCtx) (e : PolicyErr),
      need_configure_l3 conf vif = Except.error e →
      (∀ d, Step.invokeConfigureL3 d ∉
        (connect cenv l3env conf vif info ifname netns idg cid ns).steps) ∧
      (connect cenv l3env conf vif info ifname netns idg cid ns).l3trace = [] ∧
      (cenv.driverExists vif.vifKind = true → cenv.plugFails = false →
        cenv.driverConnectFails = false →
        (connect cenv l3env conf vif info ifname netns idg cid ns).outcome
          = some (ConnectErr.policyFailed e))) := by
  refine ⟨?_, ?_, ?_⟩
  · intro conf vif physnet hp hl
    simp [need_configure_l3, hp, hl]
  · intro conf vif physnet resource hp hl hl2
    simp [need_configure_l3, hp, hl, hl2]
  · intro cenv l3env conf vif info ifname netns idg cid ns e he
    refine ⟨?_, ?_, ?_⟩
    · intro d
      cases h1 : cenv.driverExists vif.vifKind <;>
        cases h2 : cenv.plugFails <;>
          cases h3 : cenv.driverConnectFails <;>
            simp [connect, h1, h2, h3, he]
    · cases h1 : cenv.driverExists vif.vifKind <;>
        cases h2 : cenv.plugFails <;>
          cases h3 : cenv.driverConnectFails <;>
            simp [connect, h1, h2, h3, he]
    · intro h1 h2 h3
      simp [connect, h1, h2, h3, he]

/-- Witness for C7 at a concrete VIF whose physnet has no resource
mapping. -/
theorem missing_resource_mapping_fails_policy_witness :
    need_configure_l3 emptyConf sriovVif
        = Except.error (PolicyErr.resourceNotFound "physnet2") ∧
    Step.invokeConfigureL3 ⟨⟨[]⟩⟩ ∉
      (connect okConnectEnv okEnv emptyConf sriovVif ⟨"inst"⟩ "eth0" (some "ns0")
        true none ⟨none⟩).steps ∧
    (connect okConnectEnv okEnv emptyConf sriovVif ⟨"inst"⟩ "eth0" (some "ns0")
        true none ⟨none⟩).l3trace = [] ∧
    (connect okConnectEnv okEnv emptyConf sriovVif ⟨"inst"⟩ "eth0" (some "ns0")
        true none ⟨none⟩).outcome
      = some (ConnectErr.policyFailed (PolicyErr.resourceNotFound "physnet2")) := by
  have h1 := missing_resource_mapping_fails_policy.1 emptyConf sriovVif "physnet2"
    rfl rfl
  have h3 := missing_resource_mapping_fails_policy.2.2 okConnectEnv okEnv emptyConf
    sriovVif ⟨"inst"⟩ "eth0" (some "ns0") true none ⟨none⟩
    (PolicyErr.resourceNotFound "physnet2") h1
  exact ⟨h1, h3.1 ⟨⟨[]⟩⟩, h3.2.1, h3.2.2 rfl rfl rfl⟩

/-- Claim C8: every `connect` call performs its steps in the fixed order
normalize netns, resolve driver, plug, driver connect, evaluate the L3
policy, and — only when the policy answers true — invoke the privileged
configurator with the plain-data snapshot of the VIF: the recorded step
trace is always an initial segment of that master sequence, it is the
whole sequence exactly on success, and no rollback step (driver
disconnect or unplug) ever appears. -/
theorem connect_step_order
    (cenv : ConnectEnv) (l3env : L3Env) (conf : Conf) (vif : Vif)
    (info : InstanceInfo) (ifname : String) (netns : Option String)
    (idg : Bool) (cid : Option String) (ns : NsCtx) :
    (∃ t, (connect cenv l3env conf vif info ifname netns idg cid ns).steps ++ t
        = connectMasterSteps conf vif netns) ∧
    ((connect cenv l3env conf vif info ifname netns idg cid ns).outcome = none →
      (connect cenv l3env conf vif info ifname netns idg cid ns).steps
        = connectMasterSteps conf vif netns) ∧
    Step.driverDisconnect ∉
      (connect cenv l3env conf vif info ifname netns idg cid ns).steps ∧
    Step.unplug ∉ (connect cenv l3env conf vif info ifname netns idg cid ns).steps := by
  rcases h4 : need_configure_l3 conf vif with e | b
  · cases h1 : cenv.driverExists vif.vifKind with
    | false =>
      refine ⟨⟨[Step.plug, Step.driverConnect, Step.evalL3Policy], ?_⟩, ?_, ?_, ?_⟩ <;>
        simp [connect, connectMasterSteps, h1, h4]
    | true =>
      cases h2 : cenv.plugFails with
      | true =>
        refine ⟨⟨[Step.driverConnect, Step.evalL3Policy], ?_⟩, ?_, ?_, ?_⟩ <;>
          simp [connect, connectMasterSteps, h1, h2, h4]
      | false =>
        cases h3 : cenv.driverConnectFails with
        | true =>
          refine ⟨⟨[Step.evalL3Policy], ?_⟩, ?_, ?_, ?_⟩ <;>
            simp [connect, connectMasterSteps, h1, h2, h3, h4]
        | false =>
          refine ⟨⟨[], ?_⟩, ?_, ?_, ?_⟩ <;>
            simp [connect, connectMasterSteps, h1, h2, h3, h4]
  · cases b with
    | false =>
      cases h1 : cenv.driverExists vif.vifKind with
      | false =>
        refine ⟨⟨[Step.plug, Step.driverConnect, Step.evalL3Policy], ?_⟩, ?_, ?_, ?_⟩ <;>
          simp [connect, connectMasterSteps, h1, h4]
      | true =>
        cases h2 : cenv.plugFails with
        | true =>
          refine ⟨⟨[Step.driverConnect, Step.evalL3Policy], ?_⟩, ?_, ?_, ?_⟩ <;>
            simp [connect, connectMasterSteps, h1, h2, h4]
        | false =>
          cases h3 : cenv.driverConnectFails with
          | true =>
            refine ⟨⟨[Step.evalL3Policy], ?_⟩, ?_, ?_, ?_⟩ <;>
              simp [connect, connectMasterSteps, h1, h2, h3, h4]
          | false =>
            refine ⟨⟨[], ?_⟩, ?_, ?_, ?_⟩ <;>
              simp [connect, connectMasterSteps, h1, h2, h3, h4]
    | true =>
      cases h1 : cenv.driverExists vif.vifKind with
      | false =>
        refine ⟨⟨[Step.plug, Step.driverConnect, Step.evalL3Policy,
          Step.invokeConfigureL3 (osvif_vif_to_dict vif)], ?_⟩, ?_, ?_, ?_⟩ <;>
          simp [connect, connectMasterSteps, h1, h4]
      | true =>
        cases h2 : cenv.plugFails with
        | true =>
          refine ⟨⟨[Step.driverConnect, Step.evalL3Policy,
            Step.invokeConfigureL3 (osvif_vif_to_dict vif)], ?_⟩, ?_, ?_, ?_⟩ <;>
            simp [connect, connectMasterSteps, h1, h2, h4]
        | false =>
          cases h3 : cenv.driverConnectFails with
          | true =>
            refine ⟨⟨[Step.evalL3Policy,
              Step.invokeConfigureL3 (osvif_vif_to_dict vif)], ?_⟩, ?_, ?_, ?_⟩ <;>
              simp [connect, connectMasterSteps, h1, h2, h3, h4]
          | false =>
            refine ⟨⟨[], ?_⟩, ?_, ?_, ?_⟩ <;>
              simp [connect, connectMasterSteps, h1, h2, h3, h4]

/-- Witness for C8: on a fully successful concrete `connect` call the
step trace is the whole master sequence. -/
theorem connect_step_order_witness :
    (∃ t, (connect okConnectEnv okEnv emptyConf oneGwVif ⟨"inst"⟩ "eth0"
        (some "ns0") true none ⟨none⟩).steps ++ t
      = connectMasterSteps emptyConf oneGwVif (some "ns0")) ∧
    (connect okConnectEnv okEnv emptyConf oneGwVif ⟨"inst"⟩ "eth0" (some "ns0")
        true none ⟨none⟩).steps
      = connectMasterSteps emptyConf oneGwVif (some "ns0") := by
  have h := connect_step_order okConnectEnv okEnv emptyConf oneGwVif ⟨"inst"⟩
    "eth0" (some "ns0") true none ⟨none⟩
  exact ⟨h.1, h.2.1 (by decide)⟩

/-- Claim C9: every `disconnect` call resolves the driver, invokes the
driver's disconnect, then unplugs — its step trace is an initial segment
of exactly that sequence, the whole of it on success — and performs no L3
teardown: its privileged-configurator trace is empty, the namespace
context is untouched, and neither an L3-configurator invocation nor a
plug step ever appears. -/
theorem disconnect_step_order_no_l3
    (cenv : ConnectEnv) (vif : Vif) (info : InstanceInfo) (ifname : String)
    (netns : Option String) (cid : Option String) (ns : NsCtx) :
    (∃ t, (disconnect cenv vif info ifname netns cid ns).steps ++ t
        = [Step.resolveDriver vif.vifKind, Step.driverDisconnect, Step.unplug]) ∧
    ((disconnect cenv vif info ifname netns cid ns).outcome = none →
      (disconnect cenv vif info ifname netns cid ns).steps
        = [Step.resolveDriver vif.vifKind, Step.driverDisconnect, Step.unplug]) ∧
    (disconnect cenv vif info ifname netns cid ns).l3trace = [] ∧
    (disconnect cenv vif info ifname netns cid ns).ns = ns ∧
    (∀ d, Step.invokeConfigureL3 d ∉
      (disconnect cenv vif info ifname netns cid ns).steps) ∧
    Step.plug ∉ (disconnect cenv vif info ifname netns cid ns).steps := by
  cases h1 : cenv.driverExists vif.vifKind with
  | false =>
    refine ⟨⟨[Step.driverDisconnect, Step.unplug], ?_⟩, ?_, ?_, ?_, ?_, ?_⟩ <;>
      simp [disconnect, h1]
  | true =>
    cases h2 : cenv.driverDisconnectFails with
    | true =>
      refine ⟨⟨[Step.unplug], ?_⟩, ?_, ?_, ?_, ?_, ?_⟩ <;>
        simp [disconnect, h1, h2]
    | false =>
      cases h3 : cenv.unplugFails with
      | true =>
        refine ⟨⟨[], ?_⟩, ?_, ?_, ?_, ?_, ?_⟩ <;> simp [disconnect, h1, h2, h3]
      | false =>
        refine ⟨⟨[], ?_⟩, ?_, ?_, ?_, ?_, ?_⟩ <;> simp [disconnect, h1, h2, h3]

/-- Witness for C9 on a successful concrete `disconnect` call. -/
theorem disconnect_step_order_no_l3_witness :
    (disconnect okConnectEnv plainVif ⟨"inst"⟩ "eth0" (some "ns0") none ⟨none⟩).steps
      = [Step.resolveDriver "VIFBridge", Step.driverDisconnect, Step.unplug] ∧
    (disconnect okConnectEnv plainVif ⟨"inst"⟩ "eth0" (some "ns0") none
        ⟨none⟩).l3trace = [] :=
  ⟨(disconnect_step_order_no_l3 okConnectEnv plainVif ⟨"inst"⟩ "eth0" (some "ns0")
      none ⟨none⟩).2.1 rfl,
   (disconnect_step_order_no_l3 okConnectEnv plainVif ⟨"inst"⟩ "eth0" (some "ns0")
      none ⟨none⟩).2.2.1⟩

end ZunCni
